import Mathlib

/-!
Shallow embedding of the GreatFET command/transfer protocol layer of
libsigrok (src/hardware/greatfet — the command-and-transfer C file).

The asynchronous libusb layer is modelled by an explicit environment:
each call to `libusb_handle_events_completed` inside the wait loop is one
`WaitStep` of a trace, allocation/submission outcomes and the bytes the
device writes into the transfer buffer are fields of `UsbEnv`.  All
functions are translated statement-by-statement from the C source.
-/

/- libusb error codes (from libusb.h, external library). -/
def LIBUSB_SUCCESS : Int := 0
def LIBUSB_ERROR_IO : Int := -1
def LIBUSB_ERROR_INVALID_PARAM : Int := -2
def LIBUSB_ERROR_NO_DEVICE : Int := -4
def LIBUSB_ERROR_BUSY : Int := -6
def LIBUSB_ERROR_INTERRUPTED : Int := -10
def LIBUSB_ERROR_NO_MEM : Int := -11

/- libusb transfer status values (enum libusb_transfer_status). -/
def LIBUSB_TRANSFER_COMPLETED : Nat := 0
def LIBUSB_TRANSFER_NO_DEVICE : Nat := 5

def LIBUSB_CONTROL_SETUP_SIZE : Nat := 8
def LIBUSB_ENDPOINT_OUT : Nat := 0x00
def LIBUSB_ENDPOINT_IN : Nat := 0x80
def LIBUSB_REQUEST_TYPE_VENDOR : Nat := 0x40
def LIBUSB_RECIPIENT_ENDPOINT : Nat := 0x02

/-- Modelled from the spec: the constants of protocol.h are not among the
provided sources.  The libgreat vendor request number; its concrete value
does not affect any claim. -/
def GREATFET_LIBGREAT_REQUEST_NUMBER : Nat := 0x65

/-- Modelled from the spec: protocol.h is missing; concrete value is
irrelevant to the claims. -/
def GREATFET_LIBGREAT_VALUE_EXECUTE : Nat := 0

/-- Modelled from the spec: "a skip-response bit set in the request's flags
field" (spec section 6).  A single nonzero flag bit; protocol.h is missing. -/
def GREATFET_LIBGREAT_FLAG_SKIP_RESPONSE : Nat := 1

/-- Modelled from the spec: protocol.h is missing; value irrelevant to the
claims. -/
def GREATFET_CLASS_LA : Nat := 0x10d

/-- Modelled from the spec: protocol.h is missing; value irrelevant to the
claims. -/
def GREATFET_LA_VERB_CONFIGURE : Nat := 0

/-- Modelled from the spec: protocol.h is missing; value irrelevant to the
claims. -/
def GREATFET_LOGIC_DEFAULT_TIMEOUT : Nat := 500

/-- One iteration of the wait loop as seen from the environment: the result
of `libusb_handle_events_completed(NULL, completed)`, whether that event
processing ran this transfer's completion callback (which sets the
completion flag), and whether `transfer->dev_handle` is observed to be null
right after it. -/
structure WaitStep where
  eventsRc : Int
  setsCompleted : Bool
  handleNull : Bool
  deriving Repr, DecidableEq

/-- Outcome of `sync_transfer_wait_for_completion`: the returned `rc`
(`none` models the C variable `rc` never being assigned because the loop
body never ran), the final value of the completion flag, the forced value
of `transfer->status` (`none` = the loop never wrote it), and whether
`libusb_cancel_transfer` was invoked by the loop. -/
structure WaitRes where
  rc : Option Int
  completed : Bool
  status : Option Nat
  cancelled : Bool
  deriving Repr, DecidableEq

/-- The loop body of `sync_transfer_wait_for_completion`, one constructor
case per shape of the remaining event trace.  Returns `none` when the trace
is exhausted while the loop would still be spinning (the C code would keep
blocking in `libusb_handle_events_completed`). -/
def syncWaitAux (cancelled : Bool) (status : Option Nat) (lastRc : Option Int)
    (completed : Bool) : List WaitStep → Option WaitRes
  | [] =>
    if completed then some ⟨lastRc, completed, status, cancelled⟩ else none
  | s :: rest =>
    if completed then some ⟨lastRc, completed, status, cancelled⟩
    else
      let rc := s.eventsRc
      let completed2 := completed || s.setsCompleted
      if rc < 0 then
        if rc = LIBUSB_ERROR_INTERRUPTED then
          syncWaitAux cancelled status (some rc) completed2 rest
        else
          some ⟨some rc, completed2, status, true⟩
      else
        if s.handleNull then
          some ⟨some rc, true, some LIBUSB_TRANSFER_NO_DEVICE, cancelled⟩
        else if completed2 then
          some ⟨some rc, completed2, status, cancelled⟩
        else
          syncWaitAux cancelled status (some rc) completed2 rest

/-- `sync_transfer_wait_for_completion` (part_000 lines 76-103): pump
`libusb_handle_events_completed` until the completion flag is set; on an
interrupted event round continue; on a genuine error cancel the transfer
and break, returning the error; after each successful round, if the device
handle is null force `transfer->status := LIBUSB_TRANSFER_NO_DEVICE` and
the flag set, then return the (non-negative) events result. -/
def sync_transfer_wait_for_completion (completed : Bool) (steps : List WaitStep) :
    Option WaitRes :=
  syncWaitAux false none none completed steps

/-- Environment of one `sync_async_control_transfer` call: outcome of
`libusb_alloc_transfer`, of `malloc`, of `libusb_submit_transfer`, the wait
loop's event trace, the bytes the device wrote into the data stage of the
transfer buffer (their number models `actual_length`), and the contents of
the uninitialized remainder of the malloc'd buffer. -/
structure UsbEnv where
  allocOk : Bool
  mallocOk : Bool
  submitRc : Int
  waitSteps : List WaitStep
  received : List Nat
  junk : Nat → Nat

/-- `libusb_fill_control_setup` (libusb): the 8 setup bytes
bmRequestType, bRequest, wValue (LE), wIndex (LE), wLength (LE). -/
def libusb_fill_control_setup (request_type bRequest wValue wIndex wLength : Nat) :
    List Nat :=
  [request_type % 256, bRequest % 256,
   wValue % 256, wValue / 256 % 256,
   wIndex % 256, wIndex / 256 % 256,
   wLength % 256, wLength / 256 % 256]

/-- The `n` bytes of the transfer buffer's data stage after the transfer:
the first `received.length` bytes were written by the device, the rest keep
their uninitialized (`junk`) contents. -/
def dataStage (received : List Nat) (junk : Nat → Nat) (n : Nat) : List Nat :=
  (List.range n).map (fun i => if i < received.length then received.getD i 0 else junk i)

/-- Result of one `sync_async_control_transfer` call: the returned rc, the
caller's `data` buffer after the call (`none` when `data` was null), whether
`libusb_alloc_transfer` / `libusb_submit_transfer` were reached, whether an
undefined `memcpy` involving a null `data` pointer with nonzero length was
performed, and the (discarded) outcome of the wait loop (`none` when the
call returned before waiting). -/
structure CtrlResult where
  rc : Int
  dataOut : Option (List Nat)
  allocAttempted : Bool
  submitAttempted : Bool
  ub : Bool
  wait : Option WaitRes
  deriving Repr, DecidableEq

/-- `sync_async_control_transfer` (part_000 lines 110-179), translated
statement by statement:
null `dev_handle` returns `LIBUSB_ERROR_INVALID_PARAM` at once; null `data`
is only logged; transfer allocation and buffer malloc failures return
`LIBUSB_ERROR_NO_MEM`; the setup is written at the start of the malloc'd
buffer of size `LIBUSB_CONTROL_SETUP_SIZE + wLength + 1`; for an OUT
transfer `wLength` payload bytes are appended after the setup; the transfer
is submitted (rc recorded) and waited on, the wait result being discarded;
for an IN transfer `memcpy(data, transfer->buffer, wLength)` copies
`wLength` bytes from the START of the raw buffer back to the caller; the
submit rc is returned. -/
def sync_async_control_transfer (dev_handle : Bool)
    (request_type bRequest wValue wIndex : Nat) (data : Option (List Nat))
    (wLength : Nat) (_timeout : Nat) (env : UsbEnv) : Option CtrlResult :=
  if !dev_handle then
    some ⟨LIBUSB_ERROR_INVALID_PARAM, data, false, false, false, none⟩
  else
    -- `if (!data) sr_err(...)`: log only, no early return in the source.
    if !env.allocOk then
      some ⟨LIBUSB_ERROR_NO_MEM, data, true, false, false, none⟩
    else if !env.mallocOk then
      some ⟨LIBUSB_ERROR_NO_MEM, data, true, false, false, none⟩
    else
      let setup := libusb_fill_control_setup request_type bRequest wValue wIndex wLength
      let isIn : Bool := (request_type &&& 0x80) != 0
      let outUb : Bool := !isIn && data.isNone && (wLength != 0)
      match sync_transfer_wait_for_completion false env.waitSteps with
      | none => none
      | some w =>
        let bufAfter := setup ++ dataStage env.received env.junk (wLength + 1)
        let dataOut :=
          if isIn then data.map (fun d => bufAfter.take wLength ++ d.drop wLength)
          else data
        let inUb : Bool := isIn && data.isNone && (wLength != 0)
        some ⟨env.submitRc, dataOut, true, true, outUb || inUb, some w⟩

/-- `struct libgreat_command_packet` (part_000 lines 31-36): class, verb,
a payload byte buffer (the list plays the fixed `payload[]` array, so the
invariant `payload_length ≤ payload.length` corresponds to
`payload_length <= GREATFET_LOGIC_MAX_DATA_OUT`), and `payload_length`. -/
structure LibgreatCommandPacket where
  class_number : Nat
  verb_number : Nat
  payload : List Nat
  payload_length : Nat
  deriving Repr, DecidableEq

/-- A u32 serialized little-endian, as the packed C struct lays it out. -/
def u32le (n : Nat) : List Nat :=
  [n % 256, n / 256 % 256, n / 65536 % 256, n / 16777216 % 256]

/-- The in-memory bytes of a `libgreat_command_packet` that the outbound
`memcpy` reads from: class (LE u32), verb (LE u32), then the payload array.
Only the first `payload_length + 8` bytes are ever transmitted. -/
def structBytes (c : LibgreatCommandPacket) : List Nat :=
  u32le c.class_number ++ u32le c.verb_number ++ c.payload

/-- One control transfer as issued by `greatfet_execute_libgreat_command`:
the setup fields it was given.  Used to state how many transfers a call
performs and with which flags. -/
structure TransferRecord where
  requestType : Nat
  bRequest : Nat
  wValue : Nat
  wIndex : Nat
  wLength : Nat
  timeout : Nat
  deriving Repr, DecidableEq

/-- `LIBUSB_ENDPOINT_OUT | LIBUSB_REQUEST_TYPE_VENDOR | LIBUSB_RECIPIENT_ENDPOINT`. -/
def ctrlRequestTypeOut : Nat :=
  LIBUSB_ENDPOINT_OUT ||| LIBUSB_REQUEST_TYPE_VENDOR ||| LIBUSB_RECIPIENT_ENDPOINT

/-- `LIBUSB_ENDPOINT_IN | LIBUSB_REQUEST_TYPE_VENDOR | LIBUSB_RECIPIENT_ENDPOINT`. -/
def ctrlRequestTypeIn : Nat :=
  LIBUSB_ENDPOINT_IN ||| LIBUSB_REQUEST_TYPE_VENDOR ||| LIBUSB_RECIPIENT_ENDPOINT

/-- Environment of one `greatfet_execute_libgreat_command` call: one
`UsbEnv` for the outbound control transfer and one for the (possible)
inbound one. -/
structure ExecEnv where
  outEnv : UsbEnv
  inEnv : UsbEnv

/-- Result of `greatfet_execute_libgreat_command`: returned rc, the control
transfers issued (in order), the caller's response buffer after the call,
and whether any undefined memcpy was performed along the way. -/
structure ExecResult where
  rc : Int
  transfers : List TransferRecord
  responseOut : Option (List Nat)
  ub : Bool
  deriving Repr, DecidableEq

/-- The outbound (host-to-device) control transfer exactly as
`greatfet_execute_libgreat_command` issues it: vendor OUT request,
`wIndex` carries the flags (skip-response bit iff no response requested),
`wLength = payload_length + 2*sizeof(uint32_t)` truncated to u16, data is
the raw command packet bytes. -/
def execOutboundCall (dh : Bool) (command : LibgreatCommandPacket)
    (response_max_length timeout : Nat) (env : ExecEnv) : Option CtrlResult :=
  sync_async_control_transfer dh ctrlRequestTypeOut
    GREATFET_LIBGREAT_REQUEST_NUMBER GREATFET_LIBGREAT_VALUE_EXECUTE
    (if response_max_length = 0 then GREATFET_LIBGREAT_FLAG_SKIP_RESPONSE else 0)
    (some (structBytes command)) ((command.payload_length + 8) % 65536)
    timeout env.outEnv

/-- `greatfet_execute_libgreat_command` (part_000 lines 193-260): set the
skip-response flag iff `response_max_length == 0`; issue the outbound
transfer carrying the command; on a negative result return it immediately
(no inbound transfer); if no response was requested return 0; otherwise
issue the inbound transfer into the response buffer and return its result. -/
def greatfet_execute_libgreat_command (dh : Bool)
    (command : LibgreatCommandPacket) (response_buffer : Option (List Nat))
    (response_max_length : Nat) (timeout : Nat) (env : ExecEnv) :
    Option ExecResult :=
  let flags := if response_max_length = 0 then GREATFET_LIBGREAT_FLAG_SKIP_RESPONSE else 0
  let command_length := (command.payload_length + 8) % 65536
  let outRec : TransferRecord :=
    ⟨ctrlRequestTypeOut, GREATFET_LIBGREAT_REQUEST_NUMBER,
     GREATFET_LIBGREAT_VALUE_EXECUTE, flags, command_length, timeout⟩
  match execOutboundCall dh command response_max_length timeout env with
  | none => none
  | some outRes =>
    if outRes.rc < 0 then
      some ⟨outRes.rc, [outRec], response_buffer, outRes.ub⟩
    else if response_max_length = 0 then
      some ⟨0, [outRec], response_buffer, outRes.ub⟩
    else
      match sync_async_control_transfer dh ctrlRequestTypeIn
          GREATFET_LIBGREAT_REQUEST_NUMBER GREATFET_LIBGREAT_VALUE_EXECUTE 0
          response_buffer (response_max_length % 65536) timeout env.inEnv with
      | none => none
      | some inRes =>
        some ⟨inRes.rc,
              [outRec,
               ⟨ctrlRequestTypeIn, GREATFET_LIBGREAT_REQUEST_NUMBER,
                GREATFET_LIBGREAT_VALUE_EXECUTE, 0,
                response_max_length % 65536, timeout⟩],
              inRes.dataOut, outRes.ub || inRes.ub⟩

/-- The loop of `greatfet_cancel_transfers`: the accumulator `rc` is the C
local `rc`, assigned only when a live slot is cancelled (`none` models the
variable still being uninitialized); `cancel t` is the result
`libusb_cancel_transfer` would give for transfer `t`.  The first component
collects, in slot order, the transfers on which cancellation was invoked. -/
def cancelLoop (cancel : Nat → Int) (rc : Option Int) :
    List (Option Nat) → List Nat × Option Int
  | [] => ([], rc)
  | none :: rest => cancelLoop cancel rc rest
  | some t :: rest =>
    let r := cancelLoop cancel (some (cancel t)) rest
    (t :: r.1, r.2)

/-- `greatfet_cancel_transfers` (part_000 lines 375-387): for each pool
slot, if non-null, `rc = libusb_cancel_transfer(...)`; return `rc`. -/
def greatfet_cancel_transfers (pool : List (Option Nat)) (cancel : Nat → Int) :
    List Nat × Option Int :=
  cancelLoop cancel none pool

/-- The loop of `greatfet_free_transfers`: frees (collects) each non-null
slot and nulls it. -/
def freeLoop : List (Option Nat) → List Nat × List (Option Nat)
  | [] => ([], [])
  | none :: rest => ((freeLoop rest).1, none :: (freeLoop rest).2)
  | some t :: rest => (t :: (freeLoop rest).1, none :: (freeLoop rest).2)

/-- `greatfet_free_transfers` (part_000 lines 393-406): free every non-null
slot, set it to NULL, return 0.  First component: the transfers freed (in
slot order) and the pool afterwards; second: the returned rc. -/
def greatfet_free_transfers (pool : List (Option Nat)) :
    (List Nat × List (Option Nat)) × Int :=
  (freeLoop pool, 0)

/-- Modelled from the spec: `struct greatfet_context` lives in the missing
protocol.h.  Its fields follow spec section 3's DeviceContext — requested
sample rate, channel count, assigned endpoint, transfer pool — plus the
`la_endpoint` field that the C file assigns.  It has no field for an
achieved sample rate or a negotiated buffer size. -/
structure GreatfetContext where
  sample_rate : Nat
  num_channels : Nat
  endpoint : Nat
  la_endpoint : Nat
  transfers : List (Option Nat)
  deriving Repr, DecidableEq

/-- `struct libgreat_configure_command_response` (part_000 lines 58-62):
u32 achieved rate, u32 buffer size, u8 endpoint. -/
structure LibgreatConfigureCommandResponse where
  sample_rate_achieved_hz : Nat
  buffer_size : Nat
  endpoint : Nat
  deriving Repr, DecidableEq

/-- Little-endian u32 read at offset `off` of a byte buffer (out-of-range
bytes read as the 0 this model gives absent bytes). -/
def le32 (b : List Nat) (off : Nat) : Nat :=
  b.getD off 0 + 256 * b.getD (off + 1) 0 + 65536 * b.getD (off + 2) 0 +
    16777216 * b.getD (off + 3) 0

/-- The `memcpy(&response, response_buffer, sizeof(...))` decode in
`greatfet_configure`: achieved rate at offset 0, buffer size at offset 4,
endpoint byte at offset 8 (the struct is not packed, so the u8 sits at
offset 8 either way). -/
def decodeConfigureResponse (b : List Nat) : LibgreatConfigureCommandResponse :=
  ⟨le32 b 0, le32 b 4, b.getD 8 0⟩

/-- `sizeof(struct libgreat_configure_command_response)`: the struct is not
`__attribute__((packed))`, so 4 + 4 + 1 pads to 12 under the usual C ABI. -/
def configureResponseSizeof : Nat := 12

/-- Result of `greatfet_configure`: returned rc, the context afterwards,
the raw response buffer bytes it decoded, whether
`libusb_claim_interface(devhdl, 1)` was invoked, and the control transfers
issued underneath. -/
structure ConfigureResult where
  rc : Int
  context : GreatfetContext
  responseBytes : List Nat
  claimedInterface : Bool
  transfers : List TransferRecord
  deriving Repr, DecidableEq

/-- `greatfet_configure` (part_000 lines 411-447): build the configure
payload {u32 sample_rate, u8 num_channels} (5 packed bytes), execute the
configure command with a `sizeof(response)`-byte response buffer, then —
without checking `rc` — decode the response buffer and assign
`context->la_endpoint` and `context->endpoint` from its endpoint byte,
claim interface 1 (result ignored), and return `rc`.
`respInit` models the uninitialized stack contents of `response_buffer`. -/
def greatfet_configure (dh : Bool) (context : GreatfetContext)
    (respInit : List Nat) (env : ExecEnv) : Option ConfigureResult :=
  let payload := u32le (context.sample_rate % 4294967296) ++ [context.num_channels % 256]
  let packet : LibgreatCommandPacket :=
    ⟨GREATFET_CLASS_LA, GREATFET_LA_VERB_CONFIGURE, payload, 5⟩
  match greatfet_execute_libgreat_command dh packet (some respInit)
      configureResponseSizeof GREATFET_LOGIC_DEFAULT_TIMEOUT env with
  | none => none
  | some r =>
    let respBytes := r.responseOut.getD []
    let response := decodeConfigureResponse respBytes
    some ⟨r.rc,
          { context with la_endpoint := response.endpoint, endpoint := response.endpoint },
          respBytes, true, r.transfers⟩

/- Concrete environments and inputs used by counterexamples and witnesses. -/

/-- Events succeed and the completion callback fires on the first round. -/
def envCbOk : UsbEnv := ⟨true, true, 0, [⟨0, true, false⟩], [], fun _ => 0⟩

/-- Successful inbound transfer in which the device wrote 5 bytes. -/
def envIn5 : UsbEnv := ⟨true, true, 0, [⟨0, true, false⟩], [1, 2, 3, 4, 5], fun _ => 0⟩

/-- Successful inbound transfer in which the device wrote 1 byte. -/
def envIn7 : UsbEnv := ⟨true, true, 0, [⟨0, true, false⟩], [7], fun _ => 0⟩

/-- The device handle is observed null on the first wait round. -/
def envDevNull : UsbEnv := ⟨true, true, 0, [⟨0, false, true⟩], [], fun _ => 0⟩

/-- Submission fails with -1 and the first wait round reports a genuine
event-processing error (-1). -/
def envIoErr : UsbEnv := ⟨true, true, -1, [⟨-1, false, false⟩], [], fun _ => 0⟩

/-- Submission fails with LIBUSB_ERROR_BUSY (-6); a genuine event error
ends the wait. -/
def envBusyOut : UsbEnv := ⟨true, true, -6, [⟨-1, false, false⟩], [], fun _ => 0⟩

/-- Inbound transfer carrying the section-8 scenario configure response:
achieved rate 24000000, buffer size 16384, endpoint 0x82. -/
def envCfgIn : UsbEnv :=
  ⟨true, true, 0, [⟨0, true, false⟩], u32le 24000000 ++ u32le 16384 ++ [0x82], fun _ => 0⟩

/-- A command packet with empty payload. -/
def cmd0 : LibgreatCommandPacket := ⟨1, 2, [], 0⟩

/-- A device context requesting 24 MHz on 8 channels, endpoint fields 7. -/
def ctx0 : GreatfetContext := ⟨24000000, 8, 7, 7, []⟩

/-- Zero-initialized model of the configure response stack buffer. -/
def respInit0 : List Nat := List.replicate 12 0

/-- Executor environment: both stages succeed, device answers 5 bytes. -/
def execEnvC1 : ExecEnv := ⟨envCbOk, envIn5⟩

/-- Executor environment: both stages succeed, nothing received. -/
def execEnv0 : ExecEnv := ⟨envCbOk, envCbOk⟩

/-- Configure environment: both stages succeed, device answers the
section-8 scenario response. -/
def envCfg : ExecEnv := ⟨envCbOk, envCfgIn⟩

/-- Configure environment whose outbound stage fails with BUSY. -/
def envCfgFail : ExecEnv := ⟨envBusyOut, envCfgIn⟩

/-- The outbound CtrlResult of `execEnv0`'s outbound stage. -/
def oLit : CtrlResult :=
  ⟨0, some (structBytes cmd0), true, true, false, some ⟨some 0, true, none, false⟩⟩

/-- The ExecResult of a response-less `execute_command` under `execEnv0`. -/
def rLit : ExecResult :=
  ⟨0,
   [⟨ctrlRequestTypeOut, GREATFET_LIBGREAT_REQUEST_NUMBER,
     GREATFET_LIBGREAT_VALUE_EXECUTE, GREATFET_LIBGREAT_FLAG_SKIP_RESPONSE, 8, 1000⟩],
   none, false⟩




/- Helper lemmas. -/

lemma getLast?_cons_or {α : Type} (a : α) (m : List α) :
    (a :: m).getLast? = m.getLast?.elim (some a) some := by
  induction m generalizing a with
  | nil => rfl
  | cons b m ih =>
    rw [List.getLast?_cons_cons, ih b]
    cases h : m.getLast? <;> simp

lemma cancelLoop_fst (cancel : Nat → Int) (l : List (Option Nat)) (rc : Option Int) :
    (cancelLoop cancel rc l).1 = l.filterMap id := by
  induction l generalizing rc with
  | nil => rfl
  | cons hd rest ih =>
    cases hd with
    | none => simpa [cancelLoop] using ih rc
    | some t => simp [cancelLoop, ih]

lemma cancelLoop_snd (cancel : Nat → Int) (l : List (Option Nat)) (rc : Option Int) :
    (cancelLoop cancel rc l).2 =
      (l.filterMap id).getLast?.elim rc (fun t => some (cancel t)) := by
  induction l generalizing rc with
  | nil => rfl
  | cons hd rest ih =>
    cases hd with
    | none => simpa [cancelLoop] using ih rc
    | some t =>
      have h1 : (cancelLoop cancel rc (some t :: rest)).2 =
          (cancelLoop cancel (some (cancel t)) rest).2 := rfl
      rw [h1, ih (some (cancel t))]
      have h2 : ((some t :: rest).filterMap id) = t :: rest.filterMap id := by simp
      rw [h2, getLast?_cons_or t (rest.filterMap id)]
      cases h : (rest.filterMap id).getLast? <;> simp

lemma freeLoop_eq (pool : List (Option Nat)) :
    freeLoop pool = (pool.filterMap id, pool.map (fun _ => none)) := by
  induction pool with
  | nil => rfl
  | cons hd rest ih =>
    cases hd with
    | none => simp [freeLoop, ih]
    | some t => simp [freeLoop, ih]

/- Claim theorems. -/

/-- C8: `greatfet_cancel_transfers` requests cancellation of exactly the
non-null pool slots, in slot order; its return value is the result of the
last cancel call issued (not an aggregate — undefined/`none` when no live
slot existed); on an all-null pool nothing is cancelled. -/
theorem cancel_transfers_spec (pool : List (Option Nat)) (cancel : Nat → Int) :
    (greatfet_cancel_transfers pool cancel).1 = pool.filterMap id
    ∧ (greatfet_cancel_transfers pool cancel).2 =
        ((pool.filterMap id).getLast?).map (fun t => cancel t)
    ∧ (pool.filterMap id = [] → (greatfet_cancel_transfers pool cancel).1 = []) := by
  refine ⟨cancelLoop_fst cancel pool none, ?_, ?_⟩
  · rw [greatfet_cancel_transfers, cancelLoop_snd]
    cases h : (pool.filterMap id).getLast? <;> simp
  · intro h
    rw [greatfet_cancel_transfers, cancelLoop_fst, h]

/-- C8 witness: on the all-null pool `[none, none]` no cancellation is
issued and the returned rc is the uninitialized marker. -/
theorem cancel_transfers_spec_witness :
    (greatfet_cancel_transfers [none, none] (fun _ => (-1 : Int))).1 = []
    ∧ (greatfet_cancel_transfers [none, none] (fun _ => (-1 : Int))).2 = none := by
  have H := cancel_transfers_spec [none, none] (fun _ => (-1 : Int))
  exact ⟨H.2.2 (by decide), by rw [H.2.1]; decide⟩

/-- C9: `greatfet_free_transfers` frees exactly the non-null slots (each
once, in slot order), nulls every slot, returns 0, and a second call on the
resulting pool frees nothing, leaves the pool unchanged and returns 0
(idempotence, no double-free). -/
theorem free_transfers_idempotent (pool : List (Option Nat)) :
    (greatfet_free_transfers pool).1.1 = pool.filterMap id
    ∧ (greatfet_free_transfers pool).1.2 = pool.map (fun _ => none)
    ∧ (greatfet_free_transfers pool).2 = 0
    ∧ greatfet_free_transfers (greatfet_free_transfers pool).1.2 =
        (([], (greatfet_free_transfers pool).1.2), 0) := by
  have h2 : freeLoop (pool.map (fun _ => none)) = ([], pool.map (fun _ => none)) := by
    rw [freeLoop_eq]
    refine Prod.ext ?_ ?_ <;> simp [List.filterMap_map, List.map_map]
  refine ⟨?_, ?_, rfl, ?_⟩
  · rw [greatfet_free_transfers, freeLoop_eq]
  · rw [greatfet_free_transfers, freeLoop_eq]
  · have hsnd : (greatfet_free_transfers pool).1.2 = pool.map (fun _ => none) := by
      rw [greatfet_free_transfers, freeLoop_eq]
    rw [hsnd, greatfet_free_transfers, h2]

lemma sync_async_true_shape (rt bR wV wI : Nat) (data : Option (List Nat))
    (wL tmo : Nat) (env : UsbEnv) (r : CtrlResult)
    (ha : env.allocOk = true) (hm : env.mallocOk = true)
    (h : sync_async_control_transfer true rt bR wV wI data wL tmo env = some r) :
    ∃ w, sync_transfer_wait_for_completion false env.waitSteps = some w ∧
      r = ⟨env.submitRc,
           (if (rt &&& 0x80) != 0 then
              data.map (fun d =>
                ((libusb_fill_control_setup rt bR wV wI wL ++
                  dataStage env.received env.junk (wL + 1)).take wL ++ d.drop wL))
            else data),
           true, true,
           ((!((rt &&& 0x80) != 0)) && data.isNone && (wL != 0)) ||
             (((rt &&& 0x80) != 0) && data.isNone && (wL != 0)),
           some w⟩ := by
  unfold sync_async_control_transfer at h
  rw [ha, hm] at h
  cases hw : sync_transfer_wait_for_completion false env.waitSteps with
  | none => rw [hw] at h; simp at h
  | some w =>
    rw [hw] at h
    simp only [Bool.not_true, Bool.false_eq_true, if_false, Option.some.injEq] at h
    exact ⟨w, rfl, h.symm⟩

/-- C2 counterexample: the device handle becomes null on the first wait
round; the wait loop forces the flag set and the status to
LIBUSB_TRANSFER_NO_DEVICE, yet the synchronous transfer call returns 0 (the
submit result) — not a device-removed (or any) error code. -/
theorem wait_loop_device_removed_not_reported :
    sync_async_control_transfer true 0x42 0x65 0 0 (some [1, 2, 3]) 3 1000 envDevNull
      = some ⟨0, some [1, 2, 3], true, true, false,
              some ⟨some 0, true, some LIBUSB_TRANSFER_NO_DEVICE, false⟩⟩
    ∧ ¬((0 : Int) < 0) ∧ (0 : Int) ≠ LIBUSB_ERROR_NO_DEVICE :=
  ⟨rfl, by decide, by decide⟩

/-- C2 (amended): a genuine (non-interrupted) event-processing error makes
the wait loop cancel the transfer and return that negative error itself; a
null device handle mid-wait forces the completion flag set and the transfer
status to device-removed but the loop returns the last non-negative events
result; and `sync_async_control_transfer` discards the wait outcome
entirely — its own result is always the submit rc or an early
parameter/memory error, never a wait-loop error. -/
theorem sync_wait_error_reporting :
    (∀ (s : WaitStep) (rest : List WaitStep),
      s.eventsRc < 0 → s.eventsRc ≠ LIBUSB_ERROR_INTERRUPTED →
      sync_transfer_wait_for_completion false (s :: rest)
        = some ⟨some s.eventsRc, s.setsCompleted, none, true⟩)
    ∧ (∀ (s : WaitStep) (rest : List WaitStep),
        0 ≤ s.eventsRc → s.handleNull = true →
        sync_transfer_wait_for_completion false (s :: rest)
          = some ⟨some s.eventsRc, true, some LIBUSB_TRANSFER_NO_DEVICE, false⟩)
    ∧ (∀ (dh : Bool) (rt bR wV wI : Nat) (data : Option (List Nat))
        (wL tmo : Nat) (env : UsbEnv) (r : CtrlResult),
        sync_async_control_transfer dh rt bR wV wI data wL tmo env = some r →
        r.rc = env.submitRc ∨ r.rc = LIBUSB_ERROR_INVALID_PARAM ∨
          r.rc = LIBUSB_ERROR_NO_MEM) := by
  refine ⟨?_, ?_, ?_⟩
  · intro s rest h1 h2
    simp [sync_transfer_wait_for_completion, syncWaitAux, h1, h2]
  · intro s rest h1 h2
    have h3 : ¬ s.eventsRc < 0 := not_lt.mpr h1
    simp [sync_transfer_wait_for_completion, syncWaitAux, h3, h2]
  · intro dh rt bR wV wI data wL tmo env r h
    unfold sync_async_control_transfer at h
    repeat' split at h
    all_goals
      first
      | exact Option.noConfusion h
      | (injection h with h; subst h; simp)

/-- C2 witness: the three parts of `sync_wait_error_reporting` at concrete
inputs: a genuine -1 event error, a null-handle wait round, and a transfer
whose submit and wait both fail with -1 yet whose overall result is the
submit rc. -/
theorem sync_wait_error_reporting_witness :
    sync_transfer_wait_for_completion false [⟨-1, false, false⟩]
      = some ⟨some (-1), false, none, true⟩
    ∧ sync_transfer_wait_for_completion false [⟨0, false, true⟩]
      = some ⟨some 0, true, some LIBUSB_TRANSFER_NO_DEVICE, false⟩
    ∧ (∃ r, sync_async_control_transfer true 0x42 0x65 0 0 (some [1, 2, 3]) 3 1000 envIoErr
          = some r
        ∧ (r.rc = envIoErr.submitRc ∨ r.rc = LIBUSB_ERROR_INVALID_PARAM ∨
            r.rc = LIBUSB_ERROR_NO_MEM)) := by
  refine ⟨sync_wait_error_reporting.1 ⟨-1, false, false⟩ [] (by decide) (by decide),
          sync_wait_error_reporting.2.1 ⟨0, false, true⟩ [] (by decide) rfl, ?_⟩
  cases hr : sync_async_control_transfer true 0x42 0x65 0 0 (some [1, 2, 3]) 3 1000 envIoErr with
  | none => exact absurd hr (by decide)
  | some r =>
    exact ⟨r, rfl, sync_wait_error_reporting.2.2 true 0x42 0x65 0 0
      (some [1, 2, 3]) 3 1000 envIoErr r hr⟩

lemma sync_async_in_dataOut (rt bR wV wI : Nat) (d : List Nat) (wL tmo : Nat)
    (env : UsbEnv) (r : CtrlResult)
    (hin : ((rt &&& 0x80) != 0) = true)
    (ha : env.allocOk = true) (hm : env.mallocOk = true)
    (h : sync_async_control_transfer true rt bR wV wI (some d) wL tmo env = some r) :
    r.dataOut = some ((libusb_fill_control_setup rt bR wV wI wL ++
      dataStage env.received env.junk (wL + 1)).take wL ++ d.drop wL) := by
  obtain ⟨w, hw, hr⟩ := sync_async_true_shape rt bR wV wI (some d) wL tmo env r ha hm h
  subst hr
  simp [hin]

/-- C4 counterexample: an IN transfer whose submission (and wait) fail with
-1 — hence never completed — still overwrites the caller's 12-byte buffer
of 9s with 12 bytes taken from the start of the raw transfer buffer. -/
theorem in_transfer_buffer_overwritten_on_failure :
    sync_async_control_transfer true 0xC2 0x65 0 0 (some (List.replicate 12 9)) 12 1000 envIoErr
      = some ⟨-1, some [194, 101, 0, 0, 0, 0, 12, 0, 0, 0, 0, 0], true, true, false,
              some ⟨some (-1), false, none, true⟩⟩
    ∧ ((-1 : Int) < 0)
    ∧ some [194, 101, 0, 0, 0, 0, 12, 0, 0, 0, 0, 0] ≠ some (List.replicate 12 9) :=
  ⟨rfl, by decide, by decide⟩

/-- C4 (amended): once an IN control transfer passes the early checks
(non-null handle, allocations succeed) and its wait loop terminates, the
caller's response buffer is always overwritten — its first wLength bytes
become the first wLength bytes of the raw transfer buffer, whatever the
transfer's outcome; only the early-exit error paths (null handle, failed
allocation) leave the buffer untouched. -/
theorem in_transfer_copy_unconditional (rt bR wV wI : Nat) (d : List Nat)
    (wL tmo : Nat) (env : UsbEnv) (r : CtrlResult)
    (hin : ((rt &&& 0x80) != 0) = true)
    (ha : env.allocOk = true) (hm : env.mallocOk = true)
    (h : sync_async_control_transfer true rt bR wV wI (some d) wL tmo env = some r) :
    r.dataOut = some ((libusb_fill_control_setup rt bR wV wI wL ++
      dataStage env.received env.junk (wL + 1)).take wL ++ d.drop wL)
    ∧ (∀ env2 : UsbEnv, env2.allocOk = false →
        sync_async_control_transfer true rt bR wV wI (some d) wL tmo env2
          = some ⟨LIBUSB_ERROR_NO_MEM, some d, true, false, false, none⟩) := by
  refine ⟨sync_async_in_dataOut rt bR wV wI d wL tmo env r hin ha hm h, ?_⟩
  intro env2 h2
  unfold sync_async_control_transfer
  rw [h2]
  simp

/-- C4 witness: the amended statement applied to the failing IN transfer of
the counterexample environment. -/
theorem in_transfer_copy_unconditional_witness :
    ∃ r, sync_async_control_transfer true 0xC2 0x65 0 0
        (some (List.replicate 12 9)) 12 1000 envIoErr = some r
      ∧ r.dataOut = some ((libusb_fill_control_setup 0xC2 0x65 0 0 12 ++
          dataStage envIoErr.received envIoErr.junk 13).take 12 ++
          (List.replicate 12 9).drop 12) := by
  cases hr : sync_async_control_transfer true 0xC2 0x65 0 0
      (some (List.replicate 12 9)) 12 1000 envIoErr with
  | none => exact absurd hr (by decide)
  | some r =>
    exact ⟨r, rfl, (in_transfer_copy_unconditional 0xC2 0x65 0 0
      (List.replicate 12 9) 12 1000 envIoErr r (by decide) rfl rfl hr).1⟩

/-- C7: for an IN control transfer (with wLength at least the control-setup
size) the bytes placed in the caller's buffer are taken from the START of
the raw transfer buffer: exactly wLength bytes are copied whatever the
actual received length, and the first LIBUSB_CONTROL_SETUP_SIZE of them are
the control-setup header bytes, not device data. -/
theorem in_transfer_starts_at_raw_buffer (rt bR wV wI : Nat) (d : List Nat)
    (wL tmo : Nat) (env : UsbEnv) (r : CtrlResult)
    (hin : ((rt &&& 0x80) != 0) = true) (h8 : 8 ≤ wL)
    (ha : env.allocOk = true) (hm : env.mallocOk = true)
    (h : sync_async_control_transfer true rt bR wV wI (some d) wL tmo env = some r) :
    ∃ copied, r.dataOut = some (copied ++ d.drop wL)
      ∧ copied.length = wL
      ∧ copied.take LIBUSB_CONTROL_SETUP_SIZE
          = libusb_fill_control_setup rt bR wV wI wL := by
  refine ⟨(libusb_fill_control_setup rt bR wV wI wL ++
      dataStage env.received env.junk (wL + 1)).take wL,
    sync_async_in_dataOut rt bR wV wI d wL tmo env r hin ha hm h, ?_, ?_⟩
  · simp [libusb_fill_control_setup, dataStage]
    omega
  · have hlen : (libusb_fill_control_setup rt bR wV wI wL).length = 8 := by
      simp [libusb_fill_control_setup]
    rw [List.take_take, LIBUSB_CONTROL_SETUP_SIZE, Nat.min_eq_left h8,
      ← hlen, List.take_left]

/-- C7 witness: a successful IN transfer, wLength 12, in which the device
wrote a single byte (7): the caller still receives 12 bytes, the first 8 of
which are the setup header. -/
theorem in_transfer_starts_at_raw_buffer_witness :
    ∃ r copied,
      sync_async_control_transfer true 0xC2 0x65 0 0
        (some (List.replicate 12 0)) 12 1000 envIn7 = some r
      ∧ r.dataOut = some (copied ++ (List.replicate 12 0).drop 12)
      ∧ copied.length = 12
      ∧ copied.take LIBUSB_CONTROL_SETUP_SIZE = libusb_fill_control_setup 0xC2 0x65 0 0 12 := by
  cases hr : sync_async_control_transfer true 0xC2 0x65 0 0
      (some (List.replicate 12 0)) 12 1000 envIn7 with
  | none => exact absurd hr (by decide)
  | some r =>
    obtain ⟨c, h1, h2, h3⟩ := in_transfer_starts_at_raw_buffer 0xC2 0x65 0 0
      (List.replicate 12 0) 12 1000 envIn7 r (by decide) (by decide) rfl rfl hr
    exact ⟨r, c, rfl, h1, h2, h3⟩

/-- C6 counterexample: an outbound transfer with a non-null handle but a
null payload pointer does NOT return a parameter error: the transfer is
allocated and submitted and the call returns the submit result (0), the
null-payload memcpy being undefined behaviour. -/
theorem null_payload_not_param_error :
    sync_async_control_transfer true 0x42 0x65 0 0 none 3 1000 envCbOk
      = some ⟨0, none, true, true, true, some ⟨some 0, true, none, false⟩⟩
    ∧ (0 : Int) ≠ LIBUSB_ERROR_INVALID_PARAM :=
  ⟨rfl, by decide⟩

/-- C6 (amended): a null device handle produces an immediate
LIBUSB_ERROR_INVALID_PARAM with no transfer allocated or submitted; a null
payload pointer, by contrast, is only logged — the call still allocates and
submits the transfer. -/
theorem null_handle_param_error :
    (∀ (rt bR wV wI : Nat) (data : Option (List Nat)) (wL tmo : Nat) (env : UsbEnv),
      sync_async_control_transfer false rt bR wV wI data wL tmo env
        = some ⟨LIBUSB_ERROR_INVALID_PARAM, data, false, false, false, none⟩)
    ∧ (∀ (rt bR wV wI wL tmo : Nat) (env : UsbEnv) (r : CtrlResult),
        env.allocOk = true → env.mallocOk = true →
        sync_async_control_transfer true rt bR wV wI none wL tmo env = some r →
        r.allocAttempted = true ∧ r.submitAttempted = true) := by
  refine ⟨fun rt bR wV wI data wL tmo env => rfl, ?_⟩
  intro rt bR wV wI wL tmo env r ha hm h
  obtain ⟨w, hw, hr⟩ := sync_async_true_shape rt bR wV wI none wL tmo env r ha hm h
  subst hr
  exact ⟨rfl, rfl⟩

/-- C6 witness: both parts at concrete inputs — a null handle rejected with
no I/O, and a null payload proceeding to allocation and submission. -/
theorem null_handle_param_error_witness :
    sync_async_control_transfer false 0x42 0x65 0 0 (some [1]) 1 1000 envCbOk
      = some ⟨LIBUSB_ERROR_INVALID_PARAM, some [1], false, false, false, none⟩
    ∧ (∃ r, sync_async_control_transfer true 0x42 0x65 0 0 none 3 1000 envCbOk = some r
        ∧ r.allocAttempted = true ∧ r.submitAttempted = true) := by
  refine ⟨null_handle_param_error.1 0x42 0x65 0 0 (some [1]) 1 1000 envCbOk, ?_⟩
  cases hr : sync_async_control_transfer true 0x42 0x65 0 0 none 3 1000 envCbOk with
  | none => exact absurd hr (by decide)
  | some r =>
    exact ⟨r, rfl, null_handle_param_error.2 0x42 0x65 0 0 3 1000 envCbOk r rfl rfl hr⟩

/-- C5: `greatfet_execute_libgreat_command` issues at most two control
transfers: exactly one when the outbound stage fails (returning that error,
zero inbound transfers) or when `response_max_length = 0` (returning 0),
and exactly two when a response was requested and the outbound stage
succeeded; the skip-response flag is in the outgoing command's wIndex
exactly when `response_max_length = 0`. -/
theorem execute_command_transfer_count (dh : Bool) (cmd : LibgreatCommandPacket)
    (buf : Option (List Nat)) (maxLen tmo : Nat) (env : ExecEnv)
    (r : ExecResult) (o : CtrlResult)
    (h : greatfet_execute_libgreat_command dh cmd buf maxLen tmo env = some r)
    (ho : execOutboundCall dh cmd maxLen tmo env = some o) :
    r.transfers.length ≤ 2
    ∧ (o.rc < 0 → r.transfers.length = 1 ∧ r.rc = o.rc)
    ∧ (0 ≤ o.rc → maxLen = 0 → r.transfers.length = 1 ∧ r.rc = 0)
    ∧ (0 ≤ o.rc → 0 < maxLen → r.transfers.length = 2)
    ∧ (∀ t, r.transfers.head? = some t →
        t.wIndex = if maxLen = 0 then GREATFET_LIBGREAT_FLAG_SKIP_RESPONSE else 0)
    ∧ GREATFET_LIBGREAT_FLAG_SKIP_RESPONSE ≠ 0 := by
  simp only [greatfet_execute_libgreat_command, ho] at h
  by_cases hrc : o.rc < 0
  · rw [if_pos hrc] at h
    injection h with h
    subst h
    refine ⟨by simp, fun _ => ⟨rfl, rfl⟩, fun h0 => absurd hrc (not_lt.mpr h0), ?_, ?_, by decide⟩
    · intro h0
      exact absurd hrc (not_lt.mpr h0)
    · intro t ht
      simp only [List.head?] at ht
      injection ht with ht
      subst ht
      rfl
  · rw [if_neg hrc] at h
    by_cases hml : maxLen = 0
    · rw [if_pos hml] at h
      injection h with h
      subst h
      refine ⟨by simp, fun hc => absurd hc hrc, fun _ _ => ⟨rfl, rfl⟩, ?_, ?_, by decide⟩
      · intro _ hpos
        omega
      · intro t ht
        simp only [List.head?] at ht
        injection ht with ht
        subst ht
        rfl
    · rw [if_neg hml] at h
      cases hi : sync_async_control_transfer dh ctrlRequestTypeIn
          GREATFET_LIBGREAT_REQUEST_NUMBER GREATFET_LIBGREAT_VALUE_EXECUTE 0
          buf (maxLen % 65536) tmo env.inEnv with
      | none => rw [hi] at h; exact Option.noConfusion h
      | some i =>
        rw [hi] at h
        injection h with h
        subst h
        refine ⟨by simp, fun hc => absurd hc hrc, fun _ h0 => absurd h0 hml, ?_, ?_, by decide⟩
        · intro _ _
          rfl
        · intro t ht
          simp only [List.head?] at ht
          injection ht with ht
          subst ht
          rfl

/-- C5 witness: a response-less command under `execEnv0` issues exactly one
transfer and returns 0. -/
theorem execute_command_transfer_count_witness :
    rLit.transfers.length = 1 ∧ rLit.rc = 0 := by
  have H := execute_command_transfer_count true cmd0 none 0 1000 execEnv0 rLit oLit rfl rfl
  exact H.2.2.1 (by decide) rfl

/-- C1 exhibit of the code bug: a fully successful round trip in which the
device sent 5 response bytes returns 0 — the result of
`libusb_submit_transfer` — not the actual received length 5 (the code never
reads `transfer->actual_length` and discards the wait result). -/
theorem execute_command_returns_submit_result_not_length :
    (greatfet_execute_libgreat_command true cmd0 (some (List.replicate 16 0))
        16 1000 execEnvC1).map ExecResult.rc = some 0
    ∧ execEnvC1.inEnv.received.length = 5
    ∧ ((0 : Int) ≠ 5) :=
  ⟨rfl, rfl, by decide⟩

lemma configure_some_shape (dh : Bool) (ctx : GreatfetContext)
    (respInit : List Nat) (env : ExecEnv) (r : ConfigureResult)
    (h : greatfet_configure dh ctx respInit env = some r) :
    r.context = { ctx with
      la_endpoint := (decodeConfigureResponse r.responseBytes).endpoint,
      endpoint := (decodeConfigureResponse r.responseBytes).endpoint } := by
  simp only [greatfet_configure] at h
  cases he : greatfet_execute_libgreat_command dh
      ⟨GREATFET_CLASS_LA, GREATFET_LA_VERB_CONFIGURE,
       u32le (ctx.sample_rate % 4294967296) ++ [ctx.num_channels % 256], 5⟩
      (some respInit) configureResponseSizeof GREATFET_LOGIC_DEFAULT_TIMEOUT env with
  | none => rw [he] at h; exact Option.noConfusion h
  | some e =>
    rw [he] at h
    injection h with h
    subst h
    rfl

/-- C3 counterexample: a successful configure whose decoded response has
achieved rate 26050 and buffer size 786432 leaves the context's sample-rate
field at the requested 24000000 and stores nothing anywhere but the
endpoint fields — the achieved rate and buffer size are not recorded. -/
theorem configure_does_not_record_achieved_rate :
    (greatfet_configure true ctx0 respInit0 envCfg).map
        (fun r => (r.context,
                   (decodeConfigureResponse r.responseBytes).sample_rate_achieved_hz,
                   (decodeConfigureResponse r.responseBytes).buffer_size))
      = some (⟨24000000, 8, 0, 0, []⟩, 26050, 786432)
    ∧ (24000000 : Nat) ≠ 26050 ∧ (24000000 : Nat) ≠ 786432 :=
  ⟨rfl, by decide, by decide⟩

/-- C3 (amended): after the configure response is decoded, the device
context records only the assigned endpoint — written to both `la_endpoint`
and `endpoint` — and is otherwise unchanged; the decoded achieved sample
rate and buffer size are discarded. -/
theorem configure_updates_only_endpoint_fields (dh : Bool) (ctx : GreatfetContext)
    (respInit : List Nat) (env : ExecEnv) (r : ConfigureResult)
    (h : greatfet_configure dh ctx respInit env = some r) :
    r.context = { ctx with
      la_endpoint := (decodeConfigureResponse r.responseBytes).endpoint,
      endpoint := (decodeConfigureResponse r.responseBytes).endpoint } :=
  configure_some_shape dh ctx respInit env r h

/-- C3 witness: the amended statement at the successful section-8 scenario
configure run. -/
theorem configure_updates_only_endpoint_fields_witness :
    ∃ r, greatfet_configure true ctx0 respInit0 envCfg = some r
      ∧ r.context = { ctx0 with
          la_endpoint := (decodeConfigureResponse r.responseBytes).endpoint,
          endpoint := (decodeConfigureResponse r.responseBytes).endpoint } := by
  cases hr : greatfet_configure true ctx0 respInit0 envCfg with
  | none => exact absurd hr (by decide)
  | some r =>
    exact ⟨r, rfl, configure_updates_only_endpoint_fields true ctx0 respInit0 envCfg r hr⟩

/-- C10: whatever the configure command's result — including a negative
(error) return — `greatfet_configure` decodes the response buffer and
overwrites both endpoint fields of the device context from it before
returning. -/
theorem configure_overwrites_endpoint_unconditionally (dh : Bool)
    (ctx : GreatfetContext) (respInit : List Nat) (env : ExecEnv)
    (r : ConfigureResult)
    (h : greatfet_configure dh ctx respInit env = some r) :
    r.context.la_endpoint = (decodeConfigureResponse r.responseBytes).endpoint
    ∧ r.context.endpoint = (decodeConfigureResponse r.responseBytes).endpoint := by
  rw [configure_some_shape dh ctx respInit env r h]
  exact ⟨rfl, rfl⟩

/-- C10 witness: a configure run whose outbound stage fails with BUSY (-6)
still has its endpoint fields overwritten from the (never-filled) response
buffer. -/
theorem configure_overwrites_endpoint_unconditionally_witness :
    (greatfet_configure true ctx0 respInit0 envCfgFail).map ConfigureResult.rc
      = some (-6)
    ∧ (∃ r, greatfet_configure true ctx0 respInit0 envCfgFail = some r
        ∧ r.context.la_endpoint = (decodeConfigureResponse r.responseBytes).endpoint
        ∧ r.context.endpoint = (decodeConfigureResponse r.responseBytes).endpoint) := by
  refine ⟨rfl, ?_⟩
  cases hr : greatfet_configure true ctx0 respInit0 envCfgFail with
  | none => exact absurd hr (by decide)
  | some r =>
    exact ⟨r, rfl,
      configure_overwrites_endpoint_unconditionally true ctx0 respInit0 envCfgFail r hr⟩
